import Mathlib

/-!
Shallow embedding of `nerfactory/datamanagers/dataparsers/friends_parser.py`
(the "Friends" dataset adapter).

Numeric values (torch float32 / numpy float64) are modelled as rationals `ℚ`;
all matrix values exercised by the claims are small exact numbers, so the
rational model is faithful for them.  Files are modelled by an explicit
filesystem record `Fs` holding the parsed contents of the JSON files the
adapter may read, plus a map from path strings to decoded segmentation label
images.  Python exceptions (AssertionError, FileNotFoundError, ValueError,
IndexError, torch's empty-stack RuntimeError) are modelled by `Except Err`.
-/

namespace FriendsParser

/-- Failure modes of the adapter, mirroring the Python exceptions raised by
`friends_parser.py`: missing input file, `torch.stack` on an empty list,
the two principal-point assertion errors at the end of
`_generate_dataset_inputs`, the homogeneous-entry assertion in
`_get_aabb_and_transform`, Python `list.index` raising ValueError and
sequence indexing raising IndexError. -/
inductive Err where
  | missingFile (path : String)
  | emptyStack
  | cxMismatch
  | cyMismatch
  | homogeneousEntry
  | valueNotFound
  | indexOutOfRange
deriving DecidableEq, Repr

/-- Python `pathlib.Path` joining `a / b` for a relative component `b`:
the paths in this adapter are plain slash-joined strings. -/
def joinPath (a b : String) : String := a ++ "/" ++ b

/-- One entry of the `"frames"` list of `cameras.json`
(§6 of the design: `{ "image_name": string, "intrinsics": 3×3 array,
"camtoworld": 4×4 array }`), already parsed into a well-typed record. -/
structure FrameJson where
  image_name : String
  intrinsics : Matrix (Fin 3) (Fin 3) ℚ
  camtoworld : Matrix (Fin 4) (Fin 4) ℚ

/-- Parsed contents of `cameras.json`: the frame list and the 2×3 `"bbox"`
(min corner row / max corner row). -/
structure CamerasJson where
  frames : List FrameJson
  bbox : Matrix (Fin 2) (Fin 3) ℚ

/-- Parsed contents of `panoptic_classes.json`:
`{ "thing": [names], "thing_colors": [[r,g,b],...], "stuff": [names],
"stuff_colors": [[r,g,b],...] }`. -/
structure PanopticClasses where
  thing : List String
  thing_colors : List (List ℚ)
  stuff : List String
  stuff_colors : List (List ℚ)

/-- Parsed contents of `threejs.json` as read by `_get_aabb_and_transform`:
the flat (row-major, 16-entry) matrices at
`data["object"]["children"][0]["matrix"]` and
`data["object"]["children"][1]["matrix"]`, and the box extents at
`data["geometries"][1]["width" / "height" / "depth"]`. -/
structure ThreejsJson where
  point_cloud_matrix : Fin 16 → ℚ
  bbox_matrix : Fin 16 → ℚ
  width : ℚ
  height : ℚ
  depth : ℚ

/-- A decoded single-channel segmentation label image
(`np.array(PIL.Image.open(...), dtype="int32")`), rows of pixels. -/
def LabelImage := List (List ℤ)

/-- The filesystem visible to the adapter: the parsed content of each JSON
file it may read (`none` = the file is absent) and the decoded segmentation
label image stored at each path (`none` = no image file there). -/
structure Fs where
  camerasJson : Option CamerasJson
  panopticClasses : Option PanopticClasses
  threejsJson : Option ThreejsJson
  segImages : String → Option LabelImage

/-- `load_from_json` on a file that must exist: returns the parsed content
or fails like Python's file-open on a missing path. -/
def loadJsonFile {α : Type} (content : Option α) (path : String) : Except Err α :=
  match content with
  | some v => Except.ok v
  | none => Except.error (Err.missingFile path)

/-- `torch.stack` on a Python list of per-frame values: the stacked value is
just the list itself in this model, and stacking an empty list raises
(RuntimeError: stack expects a non-empty TensorList). -/
def torchStack {α : Type} (l : List α) : Except Err (List α) :=
  match l with
  | [] => Except.error Err.emptyStack
  | x :: xs => Except.ok (x :: xs)

/-- Python `str.replace(pat, rep)` on character lists, for a nonempty
pattern: replaces every non-overlapping occurrence left to right.  The
first argument is fuel, instantiated with the length of the string. -/
def pyReplaceGo (rep pat : List Char) : Nat → List Char → List Char
  | _, [] => []
  | 0, s => s
  | n + 1, c :: cs =>
    if pat.isPrefixOf (c :: cs) then
      rep ++ pyReplaceGo rep pat n (List.drop (pat.length - 1) cs)
    else
      c :: pyReplaceGo rep pat n cs

/-- Python `str.replace(pat, rep)` for the nonempty patterns used in this
file (`"/images/"`, `".jpg"`). -/
def pyReplaceStr (s pat rep : String) : String :=
  String.mk (pyReplaceGo rep.data pat.data s.data.length s.data)

/-- Python `list.index(x)`: index of the first occurrence, ValueError when
absent. -/
def pyListIndex (l : List String) (x : String) : Except Err Nat :=
  match l.findIdx? (fun y => y == x) with
  | some i => Except.ok i
  | none => Except.error Err.valueNotFound

/-- Python sequence indexing `l[i]` for a nonnegative index: IndexError when
out of range. -/
def pyGetElem {α : Type} (l : List α) (i : Nat) : Except Err α :=
  match l.get? i with
  | some v => Except.ok v
  | none => Except.error Err.indexOutOfRange

/-- `PIL.Image.open` + `np.array` on a segmentation label path. -/
def imageOpen (fs : Fs) (path : String) : Except Err LabelImage :=
  match fs.segImages path with
  | some img => Except.ok img
  | none => Except.error (Err.missingFile path)

/-- `nerfactory.datamanagers.structs.Semantics`, a plain dataclass whose
fields are exactly those passed by `_generate_dataset_inputs`. -/
structure Semantics where
  stuff_classes : List String
  stuff_colors : List (List ℚ)
  stuff_filenames : List String
  thing_classes : List String
  thing_colors : List (List ℚ)
  thing_filenames : List String

/-- `nerfactory.cameras.cameras.CameraType`; only PERSPECTIVE is used here. -/
inductive CameraType where
  | perspective
deriving DecidableEq, Repr

/-- `nerfactory.cameras.cameras.Cameras` as constructed by this adapter:
per-frame fx/fy lists, one shared scalar cx/cy, and the stacked list of 3×4
camera-to-world transforms. -/
structure Cameras where
  fx : List ℚ
  fy : List ℚ
  cx : ℚ
  cy : ℚ
  camera_to_worlds : List (Matrix (Fin 3) (Fin 4) ℚ)
  camera_type : CameraType

/-- `nerfactory.datamanagers.structs.SceneBounds`: the 2×3 axis-aligned
bounding box (min corner row / max corner row). -/
structure SceneBounds where
  aabb : Matrix (Fin 2) (Fin 3) ℚ

/-- Tag naming the function object stored in `additional_inputs`; the only
one this file ever stores is `get_semantics_and_masks`. -/
inductive FuncTag where
  | getSemanticsAndMasks
deriving DecidableEq, Repr

/-- One value of the `additional_inputs` dict:
`{"func": <function>, "kwargs": {"semantics": <Semantics or None>}}`. -/
structure CallbackBinding where
  func : FuncTag
  kwargs_semantics : Option Semantics

/-- `nerfactory.datamanagers.structs.DatasetInputs` as constructed by this
adapter; `additional_inputs` is the Python dict as an association list. -/
structure DatasetInputs where
  image_filenames : List String
  cameras : Cameras
  scene_bounds : SceneBounds
  additional_inputs : List (String × CallbackBinding)

/-- Configuration record `cfg.FriendsDataParserConfig`: the data directory
(identified with its resolved absolute path: `get_absolute_path` is pure
path resolution outside this file) and the semantics-inclusion flag. -/
structure FriendsDataParserConfig where
  data_directory : String
  include_semantics : Bool

/-- The fixed rotation built at line 120 of the source:
`torch.tensor([[1, 0, 0], [0, 0, -1], [0, 1, 0]])`, a 90° rotation about
the X axis putting the Z axis up. -/
def rotationX90 : Matrix (Fin 3) (Fin 3) ℚ :=
  !![1, 0, 0; 0, 0, -1; 0, 1, 0]

/-- `camtoworld[:3]`: the first three rows of the 4×4 camera-to-world
matrix (the bottom homogeneous row is dropped). -/
def firstThreeRows (m : Matrix (Fin 4) (Fin 4) ℚ) : Matrix (Fin 3) (Fin 4) ℚ :=
  Matrix.of fun i j => m i.castSucc j

/-- The per-frame values appended by the loop body of
`_generate_dataset_inputs` (lines 101–112 of the source). -/
structure ExtractedFrame where
  image_filename : String
  fx : ℚ
  fy : ℚ
  cx : ℚ
  cy : ℚ
  camtoworld : Matrix (Fin 3) (Fin 4) ℚ

/-- The loop body of `_generate_dataset_inputs`: image path joined from the
directory, `"images"` and the frame's `image_name`; fx/fy/cx/cy read from
entries [0,0], [1,1], [0,2], [1,2] of the 3×3 intrinsics; the first three
rows of the camera-to-world matrix. -/
def extractFrame (absDir : String) (f : FrameJson) : ExtractedFrame :=
  { image_filename := joinPath (joinPath absDir "images") f.image_name
    fx := f.intrinsics 0 0
    fy := f.intrinsics 1 1
    cx := f.intrinsics 0 2
    cy := f.intrinsics 1 2
    camtoworld := firstThreeRows f.camtoworld }

/-- The thing-segmentation path of an image path (line 135 of the source):
`str(p).replace("/images/", "/segmentations/thing/").replace(".jpg", ".png")`. -/
def thingPathOf (p : String) : String :=
  pyReplaceStr (pyReplaceStr p "/images/" "/segmentations/thing/") ".jpg" ".png"

/-- The stuff-segmentation path of an image path (line 139 of the source). -/
def stuffPathOf (p : String) : String :=
  pyReplaceStr (pyReplaceStr p "/images/" "/segmentations/stuff/") ".jpg" ".png"

/-- Lines 95–174 of `_generate_dataset_inputs` after the `cameras.json`
read: stack the per-frame values (fails on an empty frame list), rotate the
camera-to-world blocks and the bbox by `rotationX90`, optionally build the
`Semantics` record (reading `panoptic_classes.json`), assert the shared
principal point, and assemble the `DatasetInputs`. -/
def buildDataset (config : FriendsDataParserConfig) (panoptic : Option PanopticClasses)
    (absDir : String) (rows : List ExtractedFrame) (bbox_in : Matrix (Fin 2) (Fin 3) ℚ) :
    Except Err DatasetInputs := do
  let image_filenames := rows.map ExtractedFrame.image_filename
  let fx ← torchStack (rows.map ExtractedFrame.fx)
  let fy ← torchStack (rows.map ExtractedFrame.fy)
  let cx ← torchStack (rows.map ExtractedFrame.cx)
  let cy ← torchStack (rows.map ExtractedFrame.cy)
  let c2wStacked ← torchStack (rows.map ExtractedFrame.camtoworld)
  let camera_to_worlds := c2wStacked.map (fun m => rotationX90 * m)
  let bbox := (rotationX90 * bbox_in.transpose).transpose
  let scene_bounds : SceneBounds := { aabb := bbox }
  let semantics : Option Semantics ←
    if config.include_semantics then do
      let thing_filenames := image_filenames.map thingPathOf
      let stuff_filenames := image_filenames.map stuffPathOf
      let panoptic_classes ← loadJsonFile panoptic (joinPath absDir "panoptic_classes.json")
      pure (some
        { stuff_classes := panoptic_classes.stuff
          stuff_colors := panoptic_classes.stuff_colors.map (fun c => c.map (fun v => v / 255))
          stuff_filenames := stuff_filenames
          thing_classes := panoptic_classes.thing
          thing_colors := panoptic_classes.thing_colors.map (fun c => c.map (fun v => v / 255))
          thing_filenames := thing_filenames })
    else
      pure none
  if cx.all (fun v => cx.headI == v) then
    if cy.all (fun v => cy.headI == v) then
      pure
        { image_filenames := image_filenames
          cameras :=
            { fx := fx
              fy := fy
              cx := cx.headI
              cy := cy.headI
              camera_to_worlds := camera_to_worlds
              camera_type := CameraType.perspective }
          scene_bounds := scene_bounds
          additional_inputs :=
            [("semantics",
              { func := FuncTag.getSemanticsAndMasks, kwargs_semantics := semantics })] }
    else
      Except.error Err.cyMismatch
  else
    Except.error Err.cxMismatch

/-- `Friends._generate_dataset_inputs`: read `cameras.json` from the data
directory, run the per-frame extraction loop in file order, then build the
dataset descriptor.  The `split` argument is unused by the source
(`pylint: disable=unused-argument`). -/
def generate_dataset_inputs (config : FriendsDataParserConfig) (fs : Fs) (split : String) :
    Except Err DatasetInputs :=
  match fs.camerasJson with
  | none => Except.error (Err.missingFile (joinPath config.data_directory "cameras.json"))
  | some cameras_json =>
      buildDataset config fs.panopticClasses config.data_directory
        (cameras_json.frames.map (extractFrame config.data_directory)) cameras_json.bbox

/-- The pair returned by `get_semantics_and_masks`:
`{"mask": mask, "semantics": stuff_semantics}`.  The mask pixels are float32
0/1 values; the trailing singleton channel dimension added by `[..., None]`
is left implicit (both arrays carry it). -/
structure SemanticsOutput where
  mask : List (List ℚ)
  semantics : List (List ℤ)

/-- `get_semantics_and_masks(image_idx, semantics)` (lines 35–52 of the
source): look up the `"person"` class index, open the thing label image for
`image_idx`, form the binary mask that is 1 where the pixel differs from
the person index and 0 where it equals it, open the stuff label image, and
return both. -/
def get_semantics_and_masks (fs : Fs) (image_idx : Nat) (semantics : Semantics) :
    Except Err SemanticsOutput := do
  let person_index ← pyListIndex semantics.thing_classes "person"
  let thing_image_filename ← pyGetElem semantics.thing_filenames image_idx
  let thing_semantics ← imageOpen fs thing_image_filename
  let mask := thing_semantics.map
    (fun row => row.map (fun p => if p ≠ (person_index : ℤ) then (1 : ℚ) else 0))
  let stuff_image_filename ← pyGetElem semantics.stuff_filenames image_idx
  let stuff_semantics ← imageOpen fs stuff_image_filename
  pure { mask := mask, semantics := stuff_semantics }

/-- `reshape(4, 4).T` of a flat 16-entry row-major matrix from
`threejs.json`: entry (i, j) of the transpose is flat entry `j * 4 + i`. -/
def reshapeT (m : Fin 16 → ℚ) : Matrix (Fin 4) (Fin 4) ℚ :=
  Matrix.of fun i j =>
    m ⟨j.val * 4 + i.val, by have h1 := i.isLt; have h2 := j.isLt; omega⟩

/-- `Friends._get_aabb_and_transform` (lines 62–85 of the source): read
`threejs.json`, transpose the point-cloud transform and assert its bottom
right homogeneous entry is 1, build the box corners from half extents,
homogenize them, apply the bbox transform and drop the homogeneous column. -/
def get_aabb_and_transform (fs : Fs) (basedir : String) :
    Except Err (Matrix (Fin 2) (Fin 3) ℚ × Matrix (Fin 4) (Fin 4) ℚ) := do
  let data ← loadJsonFile fs.threejsJson (joinPath basedir "threejs.json")
  let transposed_point_cloud_transform := reshapeT data.point_cloud_matrix
  if transposed_point_cloud_transform 3 3 = 1 then
    let bbox_transform := reshapeT data.bbox_matrix
    let temp : Fin 3 → ℚ := ![data.width / 2, data.height / 2, data.depth / 2]
    let corners : Matrix (Fin 2) (Fin 4) ℚ :=
      Matrix.of fun i j =>
        if hj : j.val < 3 then
          (if i.val = 0 then -(temp ⟨j.val, hj⟩) else temp ⟨j.val, hj⟩)
        else 1
    let aabb : Matrix (Fin 2) (Fin 3) ℚ :=
      Matrix.of fun i j => (bbox_transform * corners.transpose).transpose i j.castSucc
    pure (aabb, transposed_point_cloud_transform)
  else
    Except.error Err.homogeneousEntry

/-! ### Helper lemmas -/

@[simp] theorem ok_bind {α β : Type} (a : α) (f : α → Except Err β) :
    (Except.ok a >>= f) = f a := rfl

@[simp] theorem error_bind {α β : Type} (e : Err) (f : α → Except Err β) :
    ((Except.error e : Except Err α) >>= f) = Except.error e := rfl

@[simp] theorem pure_eq_ok {α : Type} (a : α) : (pure a : Except Err α) = Except.ok a := rfl

/-- The `Semantics` record built inside the `include_semantics` branch from
the parsed `panoptic_classes.json` and the image filename list. -/
def builtSemantics (pc : PanopticClasses) (image_filenames : List String) : Semantics :=
  { stuff_classes := pc.stuff
    stuff_colors := pc.stuff_colors.map (fun c => c.map (fun v => v / 255))
    stuff_filenames := image_filenames.map stuffPathOf
    thing_classes := pc.thing
    thing_colors := pc.thing_colors.map (fun c => c.map (fun v => v / 255))
    thing_filenames := image_filenames.map thingPathOf }

/-- The `DatasetInputs` record assembled by `buildDataset` on success, in
terms of the extracted rows, the input bbox and the optional semantics. -/
def assembled (rows : List ExtractedFrame) (bbox_in : Matrix (Fin 2) (Fin 3) ℚ)
    (sem : Option Semantics) : DatasetInputs :=
  { image_filenames := rows.map ExtractedFrame.image_filename
    cameras :=
      { fx := rows.map ExtractedFrame.fx
        fy := rows.map ExtractedFrame.fy
        cx := (rows.map ExtractedFrame.cx).headI
        cy := (rows.map ExtractedFrame.cy).headI
        camera_to_worlds := rows.map (fun e => rotationX90 * e.camtoworld)
        camera_type := CameraType.perspective }
    scene_bounds := { aabb := (rotationX90 * bbox_in.transpose).transpose }
    additional_inputs :=
      [("semantics", { func := FuncTag.getSemanticsAndMasks, kwargs_semantics := sem })] }


/-- Inversion of `buildDataset`: whenever it succeeds, the result is the
`assembled` record, the row list is nonempty, all cx (resp. cy) values
equal the first one, and the semantics component is `none` exactly when the
flag is off, otherwise built from the parsed `panoptic_classes.json`. -/
theorem buildDataset_ok_inv (config : FriendsDataParserConfig)
    (panoptic : Option PanopticClasses) (absDir : String) (rows : List ExtractedFrame)
    (bbox_in : Matrix (Fin 2) (Fin 3) ℚ) (d : DatasetInputs)
    (h : buildDataset config panoptic absDir rows bbox_in = Except.ok d) :
    ∃ sem, d = assembled rows bbox_in sem ∧ rows ≠ [] ∧
      (∀ e ∈ rows, e.cx = (rows.map ExtractedFrame.cx).headI) ∧
      (∀ e ∈ rows, e.cy = (rows.map ExtractedFrame.cy).headI) ∧
      ((config.include_semantics = false ∧ sem = none) ∨
       (config.include_semantics = true ∧ ∃ pc, panoptic = some pc ∧
          sem = some (builtSemantics pc (rows.map ExtractedFrame.image_filename)))) := by
  cases rows with
  | nil => simp [buildDataset, torchStack] at h
  | cons r rs =>
    have hmemx : (∀ a ∈ rs, r.cx = a.cx) →
        ∀ e ∈ r :: rs, e.cx = ((r :: rs).map ExtractedFrame.cx).headI := by
      intro hall e he
      rcases List.mem_cons.mp he with rfl | hm
      · simp
      · simpa using (hall e hm).symm
    have hmemy : (∀ a ∈ rs, r.cy = a.cy) →
        ∀ e ∈ r :: rs, e.cy = ((r :: rs).map ExtractedFrame.cy).headI := by
      intro hall e he
      rcases List.mem_cons.mp he with rfl | hm
      · simp
      · simpa using (hall e hm).symm
    by_cases hcx : ∀ a ∈ rs, r.cx = a.cx
    · by_cases hcy : ∀ a ∈ rs, r.cy = a.cy
      · cases hinc : config.include_semantics with
        | false =>
          simp [buildDataset, torchStack, hinc] at h
          rw [if_pos hcx, if_pos hcy] at h
          injection h with h
          refine ⟨none, ?_, by simp, hmemx hcx, hmemy hcy, Or.inl ⟨rfl, rfl⟩⟩
          rw [← h]
          simp [assembled, List.map_map, Matrix.transpose_mul, Matrix.transpose_transpose]
        | true =>
          cases hpc : panoptic with
          | none => simp [buildDataset, torchStack, hinc, hpc, loadJsonFile] at h
          | some pc =>
            simp [buildDataset, torchStack, hinc, hpc, loadJsonFile] at h
            rw [if_pos hcx, if_pos hcy] at h
            injection h with h
            refine ⟨some (builtSemantics pc ((r :: rs).map ExtractedFrame.image_filename)),
              ?_, by simp, hmemx hcx, hmemy hcy, Or.inr ⟨rfl, pc, rfl, rfl⟩⟩
            rw [← h]
            simp [assembled, builtSemantics, List.map_map, Matrix.transpose_mul,
              Matrix.transpose_transpose]
      · exfalso
        cases hinc : config.include_semantics with
        | false =>
          simp [buildDataset, torchStack, hinc] at h
          rw [if_pos hcx, if_neg hcy] at h
          exact Except.noConfusion h
        | true =>
          cases hpc : panoptic with
          | none => simp [buildDataset, torchStack, hinc, hpc, loadJsonFile] at h
          | some pc =>
            simp [buildDataset, torchStack, hinc, hpc, loadJsonFile] at h
            rw [if_pos hcx, if_neg hcy] at h
            exact Except.noConfusion h
    · exfalso
      cases hinc : config.include_semantics with
      | false =>
        simp [buildDataset, torchStack, hinc] at h
        rw [if_neg hcx] at h
        exact Except.noConfusion h
      | true =>
        cases hpc : panoptic with
        | none => simp [buildDataset, torchStack, hinc, hpc, loadJsonFile] at h
        | some pc =>
          simp [buildDataset, torchStack, hinc, hpc, loadJsonFile] at h
          rw [if_neg hcx] at h
          exact Except.noConfusion h

theorem headI_map_ne {α β : Type} [Inhabited α] [Inhabited β] (g : α → β) (l : List α)
    (h : l ≠ []) : (l.map g).headI = g l.headI := by
  cases l with
  | nil => exact absurd rfl h
  | cons a l => rfl

instance : Inhabited FrameJson :=
  ⟨{ image_name := "", intrinsics := 0, camtoworld := 0 }⟩

instance : Inhabited ExtractedFrame :=
  ⟨{ image_filename := "", fx := 0, fy := 0, cx := 0, cy := 0, camtoworld := 0 }⟩

instance : Inhabited DatasetInputs :=
  ⟨{ image_filenames := []
     cameras :=
       { fx := [], fy := [], cx := 0, cy := 0, camera_to_worlds := []
         camera_type := CameraType.perspective }
     scene_bounds := { aabb := 0 }
     additional_inputs := [] }⟩

instance : Inhabited SemanticsOutput := ⟨{ mask := [], semantics := [] }⟩

/-- Inversion of `generate_dataset_inputs`: on success the descriptor is the
`assembled` record over the extracted frame rows, the frame list is
nonempty, all cx and cy agree with frame 0's, and the semantics payload is
`none` iff the flag is off. -/
theorem generate_ok_inv (config : FriendsDataParserConfig) (fs : Fs) (split : String)
    (cj : CamerasJson) (d : DatasetInputs)
    (hcj : fs.camerasJson = some cj)
    (hok : generate_dataset_inputs config fs split = Except.ok d) :
    ∃ sem, d = assembled (cj.frames.map (extractFrame config.data_directory)) cj.bbox sem ∧
      cj.frames ≠ [] ∧
      (∀ f ∈ cj.frames, f.intrinsics 0 2 = cj.frames.headI.intrinsics 0 2) ∧
      (∀ f ∈ cj.frames, f.intrinsics 1 2 = cj.frames.headI.intrinsics 1 2) ∧
      ((config.include_semantics = false ∧ sem = none) ∨
       (config.include_semantics = true ∧ ∃ pc, fs.panopticClasses = some pc ∧
          sem = some (builtSemantics pc
            ((cj.frames.map (extractFrame config.data_directory)).map
              ExtractedFrame.image_filename)))) := by
  have hb : buildDataset config fs.panopticClasses config.data_directory
      (cj.frames.map (extractFrame config.data_directory)) cj.bbox = Except.ok d := by
    simpa [generate_dataset_inputs, hcj] using hok
  obtain ⟨sem, hd, hne, hcx, hcy, hsem⟩ := buildDataset_ok_inv _ _ _ _ _ _ hb
  have hfne : cj.frames ≠ [] := by
    intro hnil
    rw [hnil] at hne
    exact hne rfl
  refine ⟨sem, hd, hfne, ?_, ?_, hsem⟩
  · intro f hfm
    have hx := hcx (extractFrame config.data_directory f) (List.mem_map_of_mem _ hfm)
    rw [headI_map_ne ExtractedFrame.cx _ (by simpa using hne),
      headI_map_ne (extractFrame config.data_directory) _ hfne] at hx
    simpa [extractFrame] using hx
  · intro f hfm
    have hy := hcy (extractFrame config.data_directory f) (List.mem_map_of_mem _ hfm)
    rw [headI_map_ne ExtractedFrame.cy _ (by simpa using hne),
      headI_map_ne (extractFrame config.data_directory) _ hfne] at hy
    simpa [extractFrame] using hy

/-- Entry-level description of `rotationX90.mulVec`: the map
new_x = old_x, new_y = -old_z, new_z = old_y. -/
theorem rotationX90_mulVec (v : Fin 3 → ℚ) :
    rotationX90.mulVec v = ![v 0, -(v 2), v 1] := by
  funext i
  fin_cases i <;>
    simp [rotationX90, Matrix.mulVec, Matrix.dotProduct, Fin.sum_univ_three]

/-- Entry-level description of left multiplication by `rotationX90` on a
3×4 camera-to-world block. -/
theorem rotationX90_mul_apply (M : Matrix (Fin 3) (Fin 4) ℚ) (j : Fin 4) :
    (rotationX90 * M) 0 j = M 0 j ∧ (rotationX90 * M) 1 j = -(M 2 j) ∧
    (rotationX90 * M) 2 j = M 1 j := by
  refine ⟨?_, ?_, ?_⟩ <;>
    simp [rotationX90, Matrix.mul_apply, Fin.sum_univ_three]

/-- C2: the rotation that `_generate_dataset_inputs` applies to every
camera-to-world block and to the bounding box read from `cameras.json` is
exactly the fixed 90-degree rotation about the X axis given by
new_x = old_x, new_y = -old_z, new_z = old_y; in particular a transform
whose translation column is (0,1,0) is mapped to translation (0,0,1). -/
theorem C2_rotation_applied (config : FriendsDataParserConfig) (fs : Fs) (split : String)
    (cj : CamerasJson) (d : DatasetInputs)
    (hcj : fs.camerasJson = some cj)
    (hok : generate_dataset_inputs config fs split = Except.ok d) :
    d.cameras.camera_to_worlds =
      cj.frames.map (fun f => rotationX90 * firstThreeRows f.camtoworld) ∧
    d.scene_bounds.aabb = (rotationX90 * cj.bbox.transpose).transpose ∧
    (∀ v : Fin 3 → ℚ, rotationX90.mulVec v = ![v 0, -(v 2), v 1]) ∧
    (∀ M : Matrix (Fin 3) (Fin 4) ℚ, M 0 3 = 0 → M 1 3 = 1 → M 2 3 = 0 →
      (rotationX90 * M) 0 3 = 0 ∧ (rotationX90 * M) 1 3 = 0 ∧
      (rotationX90 * M) 2 3 = 1) := by
  obtain ⟨sem, hd, -, -, -, -⟩ := generate_ok_inv config fs split cj d hcj hok
  subst hd
  refine ⟨?_, rfl, rotationX90_mulVec, ?_⟩
  · simp only [assembled, List.map_map]
    rfl
  · intro M h0 h1 h2
    obtain ⟨e0, e1, e2⟩ := rotationX90_mul_apply M 3
    exact ⟨by rw [e0, h0], by rw [e1, h2, neg_zero], by rw [e2, h1]⟩

/-- C4: for every cameras.json with N frames, the camera collection has
exactly N fx, fy and camera-to-world entries in file order, and the image
path list has length N with the i-th path joined from the data directory,
"images" and the i-th frame's stored filename. -/
theorem C4_frame_lists (config : FriendsDataParserConfig) (fs : Fs) (split : String)
    (cj : CamerasJson) (d : DatasetInputs)
    (hcj : fs.camerasJson = some cj)
    (hok : generate_dataset_inputs config fs split = Except.ok d) :
    d.image_filenames =
      cj.frames.map (fun f => joinPath (joinPath config.data_directory "images") f.image_name) ∧
    d.image_filenames.length = cj.frames.length ∧
    d.cameras.fx = cj.frames.map (fun f => f.intrinsics 0 0) ∧
    d.cameras.fy = cj.frames.map (fun f => f.intrinsics 1 1) ∧
    d.cameras.fx.length = cj.frames.length ∧
    d.cameras.fy.length = cj.frames.length ∧
    d.cameras.camera_to_worlds =
      cj.frames.map (fun f => rotationX90 * firstThreeRows f.camtoworld) ∧
    d.cameras.camera_to_worlds.length = cj.frames.length ∧
    1 ≤ cj.frames.length := by
  obtain ⟨sem, hd, hne, -, -, -⟩ := generate_ok_inv config fs split cj d hcj hok
  subst hd
  refine ⟨?_, ?_, ?_, ?_, ?_, ?_, ?_, ?_, ?_⟩
  · simp only [assembled, List.map_map]; rfl
  · simp [assembled]
  · simp only [assembled, List.map_map]; rfl
  · simp only [assembled, List.map_map]; rfl
  · simp [assembled]
  · simp [assembled]
  · simp only [assembled, List.map_map]; rfl
  · simp [assembled]
  · exact Nat.one_le_iff_ne_zero.mpr (by simpa using List.length_pos.mpr hne |>.ne')

/-- C9: for a cameras.json whose "frames" list is empty,
`_generate_dataset_inputs` raises (torch.stack on an empty sequence fails)
rather than returning an empty dataset descriptor. -/
theorem C9_empty_frames (config : FriendsDataParserConfig) (fs : Fs) (split : String)
    (cj : CamerasJson)
    (hcj : fs.camerasJson = some cj) (hempty : cj.frames = []) :
    generate_dataset_inputs config fs split = Except.error Err.emptyStack := by
  simp [generate_dataset_inputs, hcj, hempty, buildDataset, torchStack]

/-- C10: the split argument of `_generate_dataset_inputs` has no influence
on the result: for any two split values and the same configuration and
file contents, the returned dataset descriptors are identical. -/
theorem C10_split_noninterference (config : FriendsDataParserConfig) (fs : Fs)
    (split1 split2 : String) :
    generate_dataset_inputs config fs split1 = generate_dataset_inputs config fs split2 := rfl

/-- Unfolding of `generate_dataset_inputs` when `cameras.json` is present. -/
theorem generate_eq_buildDataset (config : FriendsDataParserConfig) (fs : Fs) (split : String)
    (cj : CamerasJson) (hcj : fs.camerasJson = some cj) :
    generate_dataset_inputs config fs split =
      buildDataset config fs.panopticClasses config.data_directory
        (cj.frames.map (extractFrame config.data_directory)) cj.bbox := by
  simp [generate_dataset_inputs, hcj]

/-- Success test for the `Except Err` results of this model. -/
def exceptIsOk {α : Type} (e : Except Err α) : Bool :=
  match e with
  | Except.ok _ => true
  | Except.error _ => false

theorem exceptIsOk_ne_error {α : Type} (e : Except Err α) (x : Err)
    (h : exceptIsOk e = true) : e ≠ Except.error x := by
  intro hh
  rw [hh] at h
  exact Bool.noConfusion h

/-- Outcome of `buildDataset` on a nonempty row list, split by whether the
cx values (resp. cy values) all equal the first row's. -/
theorem buildDataset_result (config : FriendsDataParserConfig)
    (panoptic : Option PanopticClasses) (absDir : String) (r : ExtractedFrame)
    (rs : List ExtractedFrame) (bbox_in : Matrix (Fin 2) (Fin 3) ℚ)
    (hpano : config.include_semantics = true → ∃ pc, panoptic = some pc) :
    (¬ (∀ a ∈ rs, r.cx = a.cx) →
        buildDataset config panoptic absDir (r :: rs) bbox_in =
          Except.error Err.cxMismatch) ∧
    ((∀ a ∈ rs, r.cx = a.cx) → ¬ (∀ a ∈ rs, r.cy = a.cy) →
        buildDataset config panoptic absDir (r :: rs) bbox_in =
          Except.error Err.cyMismatch) ∧
    ((∀ a ∈ rs, r.cx = a.cx) → (∀ a ∈ rs, r.cy = a.cy) →
        exceptIsOk (buildDataset config panoptic absDir (r :: rs) bbox_in) = true) := by
  refine ⟨?_, ?_, ?_⟩
  · intro hcx
    cases hinc : config.include_semantics with
    | false =>
      simp [buildDataset, torchStack, hinc]
      exact fun hc => absurd hc hcx
    | true =>
      obtain ⟨pc, hpc⟩ := hpano hinc
      simp [buildDataset, torchStack, hinc, hpc, loadJsonFile]
      exact fun hc => absurd hc hcx
  · intro hcx hcy
    cases hinc : config.include_semantics with
    | false =>
      simp [buildDataset, torchStack, hinc]
      rw [if_pos hcx, if_neg hcy]
    | true =>
      obtain ⟨pc, hpc⟩ := hpano hinc
      simp [buildDataset, torchStack, hinc, hpc, loadJsonFile]
      rw [if_pos hcx, if_neg hcy]
  · intro hcx hcy
    cases hinc : config.include_semantics with
    | false =>
      simp [buildDataset, torchStack, hinc]
      rw [if_pos hcx, if_pos hcy]
      rfl
    | true =>
      obtain ⟨pc, hpc⟩ := hpano hinc
      simp [buildDataset, torchStack, hinc, hpc, loadJsonFile]
      rw [if_pos hcx, if_pos hcy]
      rfl

/-- C1 (counterexample input): a two-frame `cameras.json` with shared
principal point. -/
def cjW : CamerasJson :=
  { frames := [
      { image_name := "frame_0001.jpg"
        intrinsics := !![50, 0, 25; 0, 55, 30; 0, 0, 1]
        camtoworld := !![1, 0, 0, 0; 0, 1, 0, 1; 0, 0, 1, 0; 0, 0, 0, 1] },
      { image_name := "frame_0002.jpg"
        intrinsics := !![60, 0, 25; 0, 65, 30; 0, 0, 1]
        camtoworld := !![1, 0, 0, 2; 0, 1, 0, 0; 0, 0, 1, 3; 0, 0, 0, 1] }]
    bbox := !![-1, -2, -3; 1, 2, 3] }

/-- Concrete filesystem with only `cameras.json` present. -/
def fsNoSemW : Fs :=
  { camerasJson := some cjW
    panopticClasses := none
    threejsJson := none
    segImages := fun _ => none }

/-- Concrete configuration with the semantics-inclusion flag disabled. -/
def cfgNoSemW : FriendsDataParserConfig :=
  { data_directory := "/data", include_semantics := false }

/-- The descriptor produced on the concrete semantics-disabled input. -/
def dNoSemW : DatasetInputs :=
  (generate_dataset_inputs cfgNoSemW fsNoSemW "train").toOption.getD default

/-- C1 is false as stated: with semantics disabled the returned descriptor
STILL carries a semantics-loader binding under the "semantics" key of
`additional_inputs` (the registered function with a `None` payload), so
"has no semantics-loader binding" fails on this concrete input. -/
theorem C1_counterexample :
    generate_dataset_inputs cfgNoSemW fsNoSemW "train" = Except.ok dNoSemW ∧
    dNoSemW.additional_inputs.length = 1 ∧
    dNoSemW.additional_inputs.lookup "semantics" =
      some { func := FuncTag.getSemanticsAndMasks, kwargs_semantics := none } :=
  ⟨rfl, rfl, rfl⟩

/-- C1 (amended): if the semantics-inclusion flag is disabled, the loader
binding registered in `additional_inputs` carries an empty (`none`)
semantics payload — though the loader function itself is still registered —
and constructing the descriptor reads no segmentation label files (the
result does not depend on the segmentation-image contents at all). -/
theorem C1_amended_semantics_binding (config : FriendsDataParserConfig) (fs : Fs)
    (split : String) (hinc : config.include_semantics = false) :
    (∀ d, generate_dataset_inputs config fs split = Except.ok d →
        d.additional_inputs.lookup "semantics" =
          some { func := FuncTag.getSemanticsAndMasks, kwargs_semantics := none }) ∧
    (∀ g, generate_dataset_inputs config { fs with segImages := g } split =
        generate_dataset_inputs config fs split) := by
  constructor
  · intro d hok
    cases hcj : fs.camerasJson with
    | none => simp [generate_dataset_inputs, hcj] at hok
    | some cj =>
      obtain ⟨sem, hd, -, -, -, hsem⟩ := generate_ok_inv config fs split cj d hcj hok
      rcases hsem with ⟨-, hnone⟩ | ⟨htrue, -⟩
      · subst hd
        subst hnone
        simp [assembled, List.lookup]
      · rw [hinc] at htrue
        exact absurd htrue (by simp)
  · intro g
    rfl

/-- C3: mismatched cx (or cy) across frames makes
`_generate_dataset_inputs` fail with the corresponding assertion error and
return no descriptor; when all cx agree and all cy agree these two
assertion branches are unreachable. -/
theorem C3_principal_point_assert (config : FriendsDataParserConfig) (fs : Fs)
    (split : String) (cj : CamerasJson)
    (hcj : fs.camerasJson = some cj)
    (hne : cj.frames ≠ [])
    (hpano : config.include_semantics = true → ∃ pc, fs.panopticClasses = some pc) :
    (((¬ ∀ f ∈ cj.frames, f.intrinsics 0 2 = cj.frames.headI.intrinsics 0 2) ∨
      (¬ ∀ f ∈ cj.frames, f.intrinsics 1 2 = cj.frames.headI.intrinsics 1 2)) →
        (generate_dataset_inputs config fs split = Except.error Err.cxMismatch ∨
         generate_dataset_inputs config fs split = Except.error Err.cyMismatch) ∧
        ∀ d, generate_dataset_inputs config fs split ≠ Except.ok d) ∧
    ((∀ f ∈ cj.frames, f.intrinsics 0 2 = cj.frames.headI.intrinsics 0 2) →
     (∀ f ∈ cj.frames, f.intrinsics 1 2 = cj.frames.headI.intrinsics 1 2) →
        generate_dataset_inputs config fs split ≠ Except.error Err.cxMismatch ∧
        generate_dataset_inputs config fs split ≠ Except.error Err.cyMismatch) := by
  cases hfr : cj.frames with
  | nil => exact absurd hfr hne
  | cons f0 fr =>
    have heq := generate_eq_buildDataset config fs split cj hcj
    rw [hfr] at heq
    simp only [List.map_cons] at heq
    obtain ⟨hr1, hr2, hr3⟩ :=
      buildDataset_result config fs.panopticClasses config.data_directory
        (extractFrame config.data_directory f0) (fr.map (extractFrame config.data_directory))
        cj.bbox hpano
    have hxiff : (∀ a ∈ fr.map (extractFrame config.data_directory),
        (extractFrame config.data_directory f0).cx = a.cx) ↔
        (∀ f ∈ f0 :: fr, f.intrinsics 0 2 = (f0 :: fr).headI.intrinsics 0 2) := by
      simp only [List.forall_mem_map, List.forall_mem_cons, List.headI_cons, extractFrame]
      constructor
      · intro h
        exact ⟨trivial, fun f hf => (h f hf).symm⟩
      · intro h x hx
        exact (h.2 x hx).symm
    have hyiff : (∀ a ∈ fr.map (extractFrame config.data_directory),
        (extractFrame config.data_directory f0).cy = a.cy) ↔
        (∀ f ∈ f0 :: fr, f.intrinsics 1 2 = (f0 :: fr).headI.intrinsics 1 2) := by
      simp only [List.forall_mem_map, List.forall_mem_cons, List.headI_cons, extractFrame]
      constructor
      · intro h
        exact ⟨trivial, fun f hf => (h f hf).symm⟩
      · intro h x hx
        exact (h.2 x hx).symm
    constructor
    · intro hmis
      by_cases hcx : ∀ a ∈ fr.map (extractFrame config.data_directory),
          (extractFrame config.data_directory f0).cx = a.cx
      · have hcy : ¬ ∀ a ∈ fr.map (extractFrame config.data_directory),
            (extractFrame config.data_directory f0).cy = a.cy := by
          intro hcy
          rcases hmis with hx | hy
          · exact hx (hxiff.mp hcx)
          · exact hy (hyiff.mp hcy)
        have herr := hr2 hcx hcy
        rw [heq, herr]
        exact ⟨Or.inr rfl, fun d h => Except.noConfusion h⟩
      · have herr := hr1 hcx
        rw [heq, herr]
        exact ⟨Or.inl rfl, fun d h => Except.noConfusion h⟩
    · intro hallx hally
      have hok := hr3 (hxiff.mpr hallx) (hyiff.mpr hally)
      rw [heq]
      exact ⟨exceptIsOk_ne_error _ _ hok, exceptIsOk_ne_error _ _ hok⟩

/-- C6: given a `threejs.json` whose transposed point-cloud transform has
bottom-right homogeneous entry not equal to 1 (position [3,3] after
transposition, i.e. flat entry 15), `_get_aabb_and_transform` fails with
the assertion error and returns no transform. -/
theorem C6_homogeneous_assert (fs : Fs) (basedir : String) (data : ThreejsJson)
    (hdata : fs.threejsJson = some data)
    (hbad : reshapeT data.point_cloud_matrix 3 3 ≠ 1) :
    get_aabb_and_transform fs basedir = Except.error Err.homogeneousEntry ∧
    (∀ m : Fin 16 → ℚ, reshapeT m 3 3 = m 15) := by
  constructor
  · simp [get_aabb_and_transform, loadJsonFile, hdata]
    exact hbad
  · intro m
    rfl

/-- C7: when semantics is enabled, the per-frame thing and stuff
segmentation paths stored in the returned semantics record are derived
from the i-th image path exactly by Python-replacing "/images/" with
"/segmentations/thing/" (resp. "/segmentations/stuff/") and ".jpg" with
".png", staying index-aligned with the image path list. -/
theorem C7_segmentation_paths (config : FriendsDataParserConfig) (fs : Fs) (split : String)
    (cj : CamerasJson) (d : DatasetInputs)
    (hinc : config.include_semantics = true)
    (hcj : fs.camerasJson = some cj)
    (hok : generate_dataset_inputs config fs split = Except.ok d) :
    ∃ b sem, d.additional_inputs = [("semantics", b)] ∧ b.kwargs_semantics = some sem ∧
      sem.thing_filenames = d.image_filenames.map
        (fun p => pyReplaceStr (pyReplaceStr p "/images/" "/segmentations/thing/")
          ".jpg" ".png") ∧
      sem.stuff_filenames = d.image_filenames.map
        (fun p => pyReplaceStr (pyReplaceStr p "/images/" "/segmentations/stuff/")
          ".jpg" ".png") ∧
      sem.thing_filenames.length = d.image_filenames.length ∧
      sem.stuff_filenames.length = d.image_filenames.length ∧
      (∀ i, sem.thing_filenames.get? i = (d.image_filenames.get? i).map
        (fun p => pyReplaceStr (pyReplaceStr p "/images/" "/segmentations/thing/")
          ".jpg" ".png")) ∧
      (∀ i, sem.stuff_filenames.get? i = (d.image_filenames.get? i).map
        (fun p => pyReplaceStr (pyReplaceStr p "/images/" "/segmentations/stuff/")
          ".jpg" ".png")) := by
  obtain ⟨sem0, hd, -, -, -, hsem⟩ := generate_ok_inv config fs split cj d hcj hok
  rcases hsem with ⟨hfalse, -⟩ | ⟨-, pc, hpc, hsome⟩
  · rw [hinc] at hfalse
    exact absurd hfalse (by simp)
  · subst hd
    subst hsome
    refine ⟨_, builtSemantics pc
      ((cj.frames.map (extractFrame config.data_directory)).map
        ExtractedFrame.image_filename), rfl, rfl, ?_, ?_, ?_, ?_, ?_, ?_⟩
    · rfl
    · rfl
    · simp [assembled, builtSemantics]
    · simp [assembled, builtSemantics]
    · intro i
      simp only [assembled, builtSemantics, List.get?_map, List.map_map, Option.map_map]
      rfl
    · intro i
      simp only [assembled, builtSemantics, List.get?_map, List.map_map, Option.map_map]
      rfl

theorem pyGetElem_ok_iff {α : Type} (l : List α) (i : Nat) (v : α) :
    pyGetElem l i = Except.ok v ↔ l.get? i = some v := by
  unfold pyGetElem
  cases l.get? i <;> simp

theorem imageOpen_ok_iff (fs : Fs) (p : String) (img : LabelImage) :
    imageOpen fs p = Except.ok img ↔ fs.segImages p = some img := by
  unfold imageOpen
  cases fs.segImages p <;> simp

/-- C5: with semantics enabled, the bound per-index loader returns a mask
and a stuff-label array whose dimensions match the underlying thing/stuff
label images for that index, and the mask is binary with value 0 exactly
at pixels whose thing-class pixel value equals the index of "person" in
the thing-class name list, and 1 elsewhere. -/
theorem C5_semantics_loader (fs : Fs) (idx : Nat) (sem : Semantics) (out : SemanticsOutput)
    (hok : get_semantics_and_masks fs idx sem = Except.ok out) :
    ∃ pIdx thingPath thingImg stuffPath stuffImg,
      pyListIndex sem.thing_classes "person" = Except.ok pIdx ∧
      sem.thing_filenames.get? idx = some thingPath ∧
      fs.segImages thingPath = some thingImg ∧
      sem.stuff_filenames.get? idx = some stuffPath ∧
      fs.segImages stuffPath = some stuffImg ∧
      out.semantics = stuffImg ∧
      out.mask.length = thingImg.length ∧
      out.mask.map List.length = thingImg.map List.length ∧
      (∀ i j p, (thingImg.get? i).bind (fun row => row.get? j) = some p →
        (out.mask.get? i).bind (fun row => row.get? j) =
          some (if p = (pIdx : ℤ) then (0 : ℚ) else 1)) ∧
      (∀ i j v, (out.mask.get? i).bind (fun row => row.get? j) = some v →
        v = 0 ∨ v = 1) := by
  unfold get_semantics_and_masks at hok
  cases hp : pyListIndex sem.thing_classes "person" with
  | error e => rw [hp] at hok; exact absurd hok (by simp)
  | ok pIdx =>
  rw [hp, ok_bind] at hok
  cases ht : pyGetElem sem.thing_filenames idx with
  | error e => rw [ht] at hok; exact absurd hok (by simp)
  | ok thingPath =>
  rw [ht, ok_bind] at hok
  cases hti : imageOpen fs thingPath with
  | error e => rw [hti] at hok; exact absurd hok (by simp)
  | ok thingImg =>
  rw [hti, ok_bind] at hok
  cases hs : pyGetElem sem.stuff_filenames idx with
  | error e => rw [hs] at hok; exact absurd hok (by simp)
  | ok stuffPath =>
  rw [hs, ok_bind] at hok
  cases hsi : imageOpen fs stuffPath with
  | error e => rw [hsi] at hok; exact absurd hok (by simp)
  | ok stuffImg =>
  rw [hsi, ok_bind, pure_eq_ok] at hok
  injection hok with hok
  subst hok
  refine ⟨pIdx, thingPath, thingImg, stuffPath, stuffImg, rfl,
    (pyGetElem_ok_iff _ _ _).mp ht, (imageOpen_ok_iff _ _ _).mp hti,
    (pyGetElem_ok_iff _ _ _).mp hs, (imageOpen_ok_iff _ _ _).mp hsi,
    rfl, by simp, ?_, ?_, ?_⟩
  · simp [List.map_map, Function.comp]
  · intro i j p hijp
    cases hrow : thingImg.get? i with
    | none => rw [hrow] at hijp; exact absurd hijp (by simp)
    | some row =>
      rw [hrow] at hijp
      simp at hijp
      rw [List.get?_map, hrow]
      simp [List.get?_map, hijp]
  · intro i j v hv
    cases hrow : thingImg.get? i with
    | none =>
      rw [List.get?_map, hrow] at hv
      exact absurd hv (by simp)
    | some row =>
      rw [List.get?_map, hrow] at hv
      simp [List.get?_map] at hv
      obtain ⟨a, -, hval⟩ := hv
      by_cases hpp : a = (pIdx : ℤ)
      · left
        rw [← hval]
        simp [hpp]
      · right
        rw [← hval]
        simp [hpp]

/-- Agreement of two frame records on exactly the fields that
`_generate_dataset_inputs` reads: the image name, intrinsics entries
[0,0], [1,1], [0,2], [1,2], and the first three rows of the 4×4
camera-to-world matrix. -/
def frameAgree (f g : FrameJson) : Prop :=
  f.image_name = g.image_name ∧
  f.intrinsics 0 0 = g.intrinsics 0 0 ∧
  f.intrinsics 1 1 = g.intrinsics 1 1 ∧
  f.intrinsics 0 2 = g.intrinsics 0 2 ∧
  f.intrinsics 1 2 = g.intrinsics 1 2 ∧
  ∀ (i : Fin 3) (j : Fin 4), f.camtoworld i.castSucc j = g.camtoworld i.castSucc j

theorem forall2_map_eq {α β : Type} {R : α → α → Prop} {g : α → β}
    {l1 l2 : List α} (h : List.Forall₂ R l1 l2) (hg : ∀ a b, R a b → g a = g b) :
    l1.map g = l2.map g := by
  induction h with
  | nil => rfl
  | cons hab _ ih => simp [List.map_cons, hg _ _ hab, ih]

/-- C8: the output of `_generate_dataset_inputs` depends on each frame only
through the image name, the intrinsics entries [0,0], [1,1], [0,2], [1,2]
and the first three rows of the camera-to-world matrix — any other
intrinsics entries (including off-diagonal skew terms) and the bottom
homogeneous row have no effect. -/
theorem C8_intrinsics_projection (config : FriendsDataParserConfig) (fs : Fs)
    (split : String) (cj1 cj2 : CamerasJson)
    (hb : cj1.bbox = cj2.bbox)
    (hf : List.Forall₂ frameAgree cj1.frames cj2.frames) :
    generate_dataset_inputs config { fs with camerasJson := some cj1 } split =
    generate_dataset_inputs config { fs with camerasJson := some cj2 } split := by
  have hx : ∀ a b, frameAgree a b →
      extractFrame config.data_directory a = extractFrame config.data_directory b := by
    intro a b hab
    obtain ⟨h1, h2, h3, h4, h5, h6⟩ := hab
    have hc : firstThreeRows a.camtoworld = firstThreeRows b.camtoworld :=
      Matrix.ext fun i j => h6 i j
    simp [extractFrame, h1, h2, h3, h4, h5, hc]
  have hrows : cj1.frames.map (extractFrame config.data_directory) =
      cj2.frames.map (extractFrame config.data_directory) := forall2_map_eq hf hx
  rw [generate_eq_buildDataset config _ split cj1 rfl,
    generate_eq_buildDataset config _ split cj2 rfl, hrows, hb]

/-! ### Concrete inputs for the witnesses -/

/-- Concrete parsed `panoptic_classes.json`. -/
def panoW : PanopticClasses :=
  { thing := ["person", "cat"]
    thing_colors := [[255, 0, 0], [0, 255, 0]]
    stuff := ["wall"]
    stuff_colors := [[0, 0, 255]] }

/-- Concrete configuration with semantics enabled. -/
def cfgSemW : FriendsDataParserConfig :=
  { data_directory := "/data", include_semantics := true }

/-- Concrete filesystem with `cameras.json` and `panoptic_classes.json`. -/
def fsSemW : Fs :=
  { camerasJson := some cjW
    panopticClasses := some panoW
    threejsJson := none
    segImages := fun _ => none }

/-- The descriptor produced on the concrete semantics-enabled input. -/
def dSemW : DatasetInputs :=
  (generate_dataset_inputs cfgSemW fsSemW "train").toOption.getD default

/-- Concrete `Semantics` record for exercising the per-index loader. -/
def semW : Semantics :=
  { stuff_classes := ["wall"]
    stuff_colors := [[0, 0, 1]]
    stuff_filenames := ["/data/segmentations/stuff/frame_0001.png"]
    thing_classes := ["cat", "person"]
    thing_colors := [[1, 0, 0], [0, 1, 0]]
    thing_filenames := ["/data/segmentations/thing/frame_0001.png"] }

/-- Concrete filesystem carrying the two label images used by the loader:
the thing image has a "person" pixel (value 1) at position (0,1). -/
def fsSegW : Fs :=
  { camerasJson := none
    panopticClasses := none
    threejsJson := none
    segImages := fun p =>
      if p = "/data/segmentations/thing/frame_0001.png" then
        some ([[0, 1], [1, 1]] : List (List ℤ))
      else if p = "/data/segmentations/stuff/frame_0001.png" then
        some ([[5, 6], [7, 8]] : List (List ℤ))
      else none }

/-- The loader output on the concrete input. -/
def outSegW : SemanticsOutput :=
  (get_semantics_and_masks fsSegW 0 semW).toOption.getD default

/-- Concrete `threejs.json` whose transposed point-cloud transform has
bottom-right entry 2 instead of 1. -/
def tjBadW : ThreejsJson :=
  { point_cloud_matrix := fun i => if i.val = 15 then 2 else 1
    bbox_matrix := fun _ => 1
    width := 2
    height := 4
    depth := 6 }

/-- Concrete filesystem exposing only the malformed `threejs.json`. -/
def fsTjW : Fs :=
  { camerasJson := none
    panopticClasses := none
    threejsJson := some tjBadW
    segImages := fun _ => none }

/-- Concrete `cameras.json` with an empty frame list. -/
def cjEmptyW : CamerasJson :=
  { frames := [], bbox := !![-1, -1, -1; 1, 1, 1] }

/-- Concrete filesystem exposing the empty-frames `cameras.json`. -/
def fsEmptyW : Fs :=
  { camerasJson := some cjEmptyW
    panopticClasses := none
    threejsJson := none
    segImages := fun _ => none }

/-- One-frame `cameras.json` with zero skew and standard bottom row. -/
def cjC8a : CamerasJson :=
  { frames := [
      { image_name := "a.jpg"
        intrinsics := !![50, 0, 25; 0, 55, 30; 0, 0, 1]
        camtoworld := !![1, 0, 0, 0; 0, 1, 0, 1; 0, 0, 1, 0; 0, 0, 0, 1] }]
    bbox := !![-1, -1, -1; 1, 1, 1] }

/-- The same frame with different skew terms, last intrinsics row and
bottom camera-to-world row: entries the parser never reads. -/
def cjC8b : CamerasJson :=
  { frames := [
      { image_name := "a.jpg"
        intrinsics := !![50, 9, 25; 8, 55, 30; 7, 6, 5]
        camtoworld := !![1, 0, 0, 0; 0, 1, 0, 1; 0, 0, 1, 0; 2, 3, 4, 9] }]
    bbox := !![-1, -1, -1; 1, 1, 1] }

/-! ### Witnesses -/

/-- Witness for C1 (amended) on the concrete semantics-disabled input. -/
theorem C1_amended_witness :
    (∀ d, generate_dataset_inputs cfgNoSemW fsNoSemW "train" = Except.ok d →
        d.additional_inputs.lookup "semantics" =
          some { func := FuncTag.getSemanticsAndMasks, kwargs_semantics := none }) ∧
    (∀ g, generate_dataset_inputs cfgNoSemW { fsNoSemW with segImages := g } "train" =
        generate_dataset_inputs cfgNoSemW fsNoSemW "train") :=
  C1_amended_semantics_binding cfgNoSemW fsNoSemW "train" rfl

/-- Witness for C2 on the concrete two-frame input. -/
theorem C2_witness :
    dNoSemW.cameras.camera_to_worlds =
      cjW.frames.map (fun f => rotationX90 * firstThreeRows f.camtoworld) ∧
    dNoSemW.scene_bounds.aabb = (rotationX90 * cjW.bbox.transpose).transpose ∧
    (∀ v : Fin 3 → ℚ, rotationX90.mulVec v = ![v 0, -(v 2), v 1]) ∧
    (∀ M : Matrix (Fin 3) (Fin 4) ℚ, M 0 3 = 0 → M 1 3 = 1 → M 2 3 = 0 →
      (rotationX90 * M) 0 3 = 0 ∧ (rotationX90 * M) 1 3 = 0 ∧
      (rotationX90 * M) 2 3 = 1) :=
  C2_rotation_applied cfgNoSemW fsNoSemW "train" cjW dNoSemW rfl rfl

/-- Witness for C3 on the concrete semantics-enabled input. -/
theorem C3_witness :
    (((¬ ∀ f ∈ cjW.frames, f.intrinsics 0 2 = cjW.frames.headI.intrinsics 0 2) ∨
      (¬ ∀ f ∈ cjW.frames, f.intrinsics 1 2 = cjW.frames.headI.intrinsics 1 2)) →
        (generate_dataset_inputs cfgSemW fsSemW "train" = Except.error Err.cxMismatch ∨
         generate_dataset_inputs cfgSemW fsSemW "train" = Except.error Err.cyMismatch) ∧
        ∀ d, generate_dataset_inputs cfgSemW fsSemW "train" ≠ Except.ok d) ∧
    ((∀ f ∈ cjW.frames, f.intrinsics 0 2 = cjW.frames.headI.intrinsics 0 2) →
     (∀ f ∈ cjW.frames, f.intrinsics 1 2 = cjW.frames.headI.intrinsics 1 2) →
        generate_dataset_inputs cfgSemW fsSemW "train" ≠ Except.error Err.cxMismatch ∧
        generate_dataset_inputs cfgSemW fsSemW "train" ≠ Except.error Err.cyMismatch) :=
  C3_principal_point_assert cfgSemW fsSemW "train" cjW rfl
    (List.cons_ne_nil _ _) (fun _ => ⟨panoW, rfl⟩)

/-- Witness for C4 on the concrete two-frame input. -/
theorem C4_witness :
    dNoSemW.image_filenames =
      cjW.frames.map
        (fun f => joinPath (joinPath cfgNoSemW.data_directory "images") f.image_name) ∧
    dNoSemW.image_filenames.length = cjW.frames.length ∧
    dNoSemW.cameras.fx = cjW.frames.map (fun f => f.intrinsics 0 0) ∧
    dNoSemW.cameras.fy = cjW.frames.map (fun f => f.intrinsics 1 1) ∧
    dNoSemW.cameras.fx.length = cjW.frames.length ∧
    dNoSemW.cameras.fy.length = cjW.frames.length ∧
    dNoSemW.cameras.camera_to_worlds =
      cjW.frames.map (fun f => rotationX90 * firstThreeRows f.camtoworld) ∧
    dNoSemW.cameras.camera_to_worlds.length = cjW.frames.length ∧
    1 ≤ cjW.frames.length :=
  C4_frame_lists cfgNoSemW fsNoSemW "train" cjW dNoSemW rfl rfl

/-- Witness for C5 on the concrete label images. -/
theorem C5_witness :
    ∃ pIdx thingPath thingImg stuffPath stuffImg,
      pyListIndex semW.thing_classes "person" = Except.ok pIdx ∧
      semW.thing_filenames.get? 0 = some thingPath ∧
      fsSegW.segImages thingPath = some thingImg ∧
      semW.stuff_filenames.get? 0 = some stuffPath ∧
      fsSegW.segImages stuffPath = some stuffImg ∧
      outSegW.semantics = stuffImg ∧
      outSegW.mask.length = thingImg.length ∧
      outSegW.mask.map List.length = thingImg.map List.length ∧
      (∀ i j p, (thingImg.get? i).bind (fun row => row.get? j) = some p →
        (outSegW.mask.get? i).bind (fun row => row.get? j) =
          some (if p = (pIdx : ℤ) then (0 : ℚ) else 1)) ∧
      (∀ i j v, (outSegW.mask.get? i).bind (fun row => row.get? j) = some v →
        v = 0 ∨ v = 1) :=
  C5_semantics_loader fsSegW 0 semW outSegW rfl

/-- Witness for C6 on the malformed `threejs.json`. -/
theorem C6_witness :
    get_aabb_and_transform fsTjW "/data" = Except.error Err.homogeneousEntry ∧
    (∀ m : Fin 16 → ℚ, reshapeT m 3 3 = m 15) :=
  C6_homogeneous_assert fsTjW "/data" tjBadW rfl (by decide)

/-- Witness for C7 on the concrete semantics-enabled input. -/
theorem C7_witness :
    ∃ b sem, dSemW.additional_inputs = [("semantics", b)] ∧
      b.kwargs_semantics = some sem ∧
      sem.thing_filenames = dSemW.image_filenames.map
        (fun p => pyReplaceStr (pyReplaceStr p "/images/" "/segmentations/thing/")
          ".jpg" ".png") ∧
      sem.stuff_filenames = dSemW.image_filenames.map
        (fun p => pyReplaceStr (pyReplaceStr p "/images/" "/segmentations/stuff/")
          ".jpg" ".png") ∧
      sem.thing_filenames.length = dSemW.image_filenames.length ∧
      sem.stuff_filenames.length = dSemW.image_filenames.length ∧
      (∀ i, sem.thing_filenames.get? i = (dSemW.image_filenames.get? i).map
        (fun p => pyReplaceStr (pyReplaceStr p "/images/" "/segmentations/thing/")
          ".jpg" ".png")) ∧
      (∀ i, sem.stuff_filenames.get? i = (dSemW.image_filenames.get? i).map
        (fun p => pyReplaceStr (pyReplaceStr p "/images/" "/segmentations/stuff/")
          ".jpg" ".png")) :=
  C7_segmentation_paths cfgSemW fsSemW "train" cjW dSemW rfl rfl rfl

/-- Witness for C8: the two concrete frames differ only in entries the
parser never reads, and the outputs agree. -/
theorem C8_witness :
    generate_dataset_inputs cfgNoSemW { fsNoSemW with camerasJson := some cjC8a } "train" =
    generate_dataset_inputs cfgNoSemW { fsNoSemW with camerasJson := some cjC8b } "train" :=
  C8_intrinsics_projection cfgNoSemW fsNoSemW "train" cjC8a cjC8b rfl
    (List.Forall₂.cons
      ⟨rfl, by decide, by decide, by decide, by decide, by decide⟩
      List.Forall₂.nil)

/-- Witness for C9 on the empty-frames input. -/
theorem C9_witness :
    generate_dataset_inputs cfgNoSemW fsEmptyW "train" = Except.error Err.emptyStack :=
  C9_empty_frames cfgNoSemW fsEmptyW "train" cjEmptyW rfl rfl

end FriendsParser
